import Mathlib

/-!
Shallow embedding of `src/main.py` (the angel-t1 polling bot).

The program is sequential request/response glue; external effects (the
SmartAPI SDK calls, the REST quote endpoint, the Telegram HTTP call) are
modelled by explicit "world" records holding the outcome of each call:
`Except Unit α` stands for a call that either raises (`.error ()`) or
returns a value.  Prices are modelled as `Rat` (Python floats; no claim
depends on floating-point rounding), and Python truthiness is made
explicit (`None` and `""` and `0` are falsy).  The digit rendering of a
price (Python's format spec with thousands separators and two decimals)
is abstracted as `toString` of the rational: no claim depends on digits.
-/

namespace AngelBot

/-- Python truthiness of an optional string environment variable:
`None` and the empty string are falsy. -/
def strTruthy : Option String → Bool
  | none => false
  | some s => !s.isEmpty

/-- An HTTP response as seen by `tele_send_http`: its status code and body
text (the body is only logged). -/
structure HttpResp where
  code : Nat
  text : String
deriving Repr, DecidableEq

/-- `tele_send_http` (src/main.py lines 35-55).  Inputs: the global
`TELE_TOKEN`, the chat id and text (only placed in the payload), and the
outcome of `requests.post` (`.error ()` if the request raises).  Every
path returns a `Bool`; the surrounding `try/except` maps any exception
to `False`. -/
def tele_send_http (token : Option String) (chat_id text : String)
    (post : Except Unit HttpResp) : Bool :=
  -- the payload is built but does not influence the returned Bool
  let _payload := (chat_id, text, "HTML")
  if !(strTruthy token) then
    false
  else
    match post with
    | .error _ => false
    | .ok r => if r.code != 200 then false else true

/-- The value returned by `smartApi.generateSession` when it is a truthy
dict: whether `data.get('status') is False`, and the `data['data']`
payload (`none` models a missing key, whose access would raise). -/
structure GenSessionData where
  statusIsFalse : Bool
  payload : Option (String × String)  -- (jwtToken, refreshToken)
deriving Repr, DecidableEq

/-- The external world of `login_and_setup`: SDK availability and the
outcome of each provider call. -/
structure LoginWorld where
  sdkAvailable : Bool
  /-- outcome of `generateSession`; `.ok none` models a falsy response
  (`None` or an empty dict). -/
  genSession : Except Unit (Option GenSessionData)
  /-- outcome of `smartApi.getfeedToken()` -/
  feedToken : Except Unit String
  /-- outcome of `smartApi.generateToken(refreshToken)` -/
  genToken : Except Unit Unit
deriving Repr

/-- The session tuple returned by `login_and_setup`:
`(smartApi, authToken, refreshToken, feedToken)`; the `smartApi` handle
itself carries no data relevant to the claims. -/
structure Session where
  authToken : String
  refreshToken : String
  feedToken : Option String
deriving Repr, DecidableEq

/-- `login_and_setup` (src/main.py lines 57-76).  `.error ()` models the
function raising (RuntimeError, a propagated SDK exception, or a
KeyError on the nested token extraction).  The feed-token fetch is
swallowed to `none` on failure; the `generateToken` outcome is ignored
entirely. -/
def login_and_setup (w : LoginWorld) : Except Unit Session :=
  if !w.sdkAvailable then .error ()   -- RuntimeError('SmartAPI SDK not available...')
  else
    match w.genSession with
    | .error _ => .error ()           -- generateSession raised
    | .ok none => .error ()           -- `not data` → RuntimeError
    | .ok (some d) =>
      if d.statusIsFalse then .error ()  -- `data.get('status') is False` → RuntimeError
      else
        match d.payload with
        | none => .error ()           -- KeyError on data['data'][...]
        | some (jwt, refresh) =>
          let feed : Option String :=
            match w.feedToken with
            | .ok t => some t
            | .error _ => none
          -- `smartApi.generateToken(refreshToken)` result ignored either way
          .ok ⟨jwt, refresh, feed⟩

/-- A quote response body, as parsed by both the SDK path and the REST
path: the truthiness of `.get('status')` and the `data.fetched` list.
Each fetched entry is a dict whose `ltp` field may be missing
(`fetched[0].get('ltp', 0)` defaults to `0`). -/
structure QuoteBody where
  status : Bool
  fetched : List (Option Rat)
deriving Repr, DecidableEq

/-- A `requests.post` response in the REST path: the status code, and the
result of `response.json()` (`.error ()` if parsing would raise); the
body is only parsed when the status code is 200. -/
structure RestResp where
  statusCode : Nat
  body : Except Unit QuoteBody
deriving Repr

/-- The external world of one `get_market_data_angel` call: whether the
SDK session object has a `getMarketData` attribute, the outcome of its
two SDK calls, and the outcome of the two direct REST calls. -/
structure MarketWorld where
  hasGetMarketData : Bool
  sdkNifty : Except Unit (Option QuoteBody)  -- `.ok none` models a falsy response
  sdkBank : Except Unit (Option QuoteBody)
  restNifty : Except Unit RestResp           -- `.error ()` if requests.post raises
  restBank : Except Unit RestResp
deriving Repr

/-- The `result` dict built by `get_market_data_angel`.  The code only
ever assigns the keys `'NIFTY 50'` and `'NIFTY BANK'`, always to a
`float` (never `None`), so the dict is a pair of optional rationals. -/
structure PriceMap where
  nifty : Option Rat
  bank : Option Rat
deriving Repr, DecidableEq

/-- The empty `result = ` dict. -/
def PriceMap.empty : PriceMap := ⟨none, none⟩

/-- Python truthiness of the `result` dict: non-empty. -/
def PriceMap.nonempty (m : PriceMap) : Bool := m.nifty.isSome || m.bank.isSome

/-- `float(fetched[0].get('ltp', 0))` for a non-empty `fetched` list. -/
def ltpOf (fetched : List (Option Rat)) : Rat := (fetched.headD none).getD 0

/-- One SDK-path conditional
(`if nifty_data and nifty_data.get('status'): ... if fetched and len(fetched) > 0: result[k] = ...`):
updates the `result` dict at the given key (`true` = `'NIFTY 50'`,
`false` = `'NIFTY BANK'`) when the response is truthy, has truthy
status, and a non-empty `fetched` list. -/
def applySdk (r : PriceMap) (resp : Option QuoteBody) (isNifty : Bool) : PriceMap :=
  match resp with
  | none => r
  | some d =>
    if d.status && !d.fetched.isEmpty then
      if isNifty then { r with nifty := some (ltpOf d.fetched) }
      else { r with bank := some (ltpOf d.fetched) }
    else r

/-- The `result` dict at the end of the Method-1 block (src/main.py lines
84-108).  Both SDK calls sit in one `try`: an exception in the first
call skips the second; an exception in either is caught by the inner
`except`, keeping whatever `result` already holds, and control falls
through to Method 2. -/
def sdkPhase (w : MarketWorld) : PriceMap :=
  if w.hasGetMarketData then
    match w.sdkNifty with
    | .error _ => PriceMap.empty
    | .ok resp1 =>
      let r1 := applySdk PriceMap.empty resp1 true
      match w.sdkBank with
      | .error _ => r1
      | .ok resp2 => applySdk r1 resp2 false
  else PriceMap.empty

/-- Whether the Method-1 block reaches `if result: return result` with a
truthy dict: both SDK calls must complete without exception and the
accumulated dict must be non-empty. -/
def sdkReturnsEarly (w : MarketWorld) : Bool :=
  w.hasGetMarketData
    && (match w.sdkNifty with | .ok _ => true | .error _ => false)
    && (match w.sdkBank with | .ok _ => true | .error _ => false)
    && (sdkPhase w).nonempty

/-- One REST-path block (src/main.py lines 131-146 / 155-169): if the
POST raised, or the JSON parse raised on a 200 response, the exception
propagates to the outer handler (`.error ()`); otherwise the dict is
updated when status code is 200, `data.get('status')` is truthy and
`fetched` is non-empty. -/
def applyRest (r : PriceMap) (resp : Except Unit RestResp) (isNifty : Bool) :
    Except Unit PriceMap :=
  match resp with
  | .error _ => .error ()
  | .ok rr =>
    if rr.statusCode == 200 then
      match rr.body with
      | .error _ => .error ()
      | .ok d =>
        .ok (if d.status && !d.fetched.isEmpty then
               if isNifty then { r with nifty := some (ltpOf d.fetched) }
               else { r with bank := some (ltpOf d.fetched) }
             else r)
    else .ok r

/-- The Method-2 block plus the final `return result if result else None`,
starting from the `result` dict left by Method 1; any exception here is
caught by the outer handler, which returns `None`. -/
def restPhase (r : PriceMap) (w : MarketWorld) : Option PriceMap :=
  match applyRest r w.restNifty true with
  | .error _ => none
  | .ok r2 =>
    match applyRest r2 w.restBank false with
    | .error _ => none
    | .ok r3 => if r3.nonempty then some r3 else none

/-- `get_market_data_angel` (src/main.py lines 78-175): Method 1 (SDK
bulk call) returns early only when both its calls complete and produced
a non-empty dict; otherwise Method 2 (direct REST) runs on the same
`result` dict. -/
def get_market_data_angel (w : MarketWorld) : Option PriceMap :=
  if sdkReturnsEarly w then some (sdkPhase w) else restPhase (sdkPhase w) w

/-- Whether the call reaches the Method-2 (direct REST) block. -/
def restInvoked (w : MarketWorld) : Bool := !sdkReturnsEarly w

/-! ## The poll loop (`bot_loop`) and its message formatting

The formatter in the loop body reads `prices.get(name, 0)` and guards
with `if ltp and ltp > 0`, so it tolerates dict values that are `None`
as well as missing keys.  To state the spec's scenarios we embed the
dict with nullable entries: an entry is `none` when the key is absent
and `some none` when the key maps to `None`. -/

/-- A price dict as consumed by the loop formatter: each of the two keys
is absent (`none`), present with value `None` (`some none`), or present
with a float value (`some (some x)`). -/
structure Prices where
  nifty : Option (Option Rat)
  bank : Option (Option Rat)
deriving Repr, DecidableEq

/-- Inclusion of a `get_market_data_angel` result dict (whose values are
always floats) into the formatter's dict type. -/
def PriceMap.toPrices (m : PriceMap) : Prices :=
  ⟨m.nifty.map some, m.bank.map some⟩

/-- `prices.get(name, 0)`: a missing key defaults to `0`; a present key
yields its (possibly `None`) value. -/
def getDefault0 : Option (Option Rat) → Option Rat
  | none => some 0
  | some v => v

/-- Python truthiness of one dict value as seen by `any(prices.values())`:
only a present, non-zero float is truthy (`None` and `0` are falsy). -/
def valueTruthy : Option (Option Rat) → Bool
  | some (some x) => decide (x ≠ 0)
  | _ => false

/-- `prices and any(prices.values())` for `prices` already known non-`None`:
the dict must be non-empty and some value truthy. -/
def pricesUsable (p : Prices) : Bool :=
  (p.nifty.isSome || p.bank.isSome) && (valueTruthy p.nifty || valueTruthy p.bank)

/-- `prices and any(prices.values())` on the loop variable `prices`
(which is `None` when retrieval failed outright). -/
def fetchUsable : Option Prices → Bool
  | none => false
  | some p => pricesUsable p

/-- Rendering of a price value; stands for Python's two-decimal,
thousands-separated float formatting of `ltp`, abstracted as the
decimal string of the rational — no claim depends on the digits. -/
def fmtPrice (x : Rat) : String := "₹" ++ toString x

/-- One line of the loop formatter
(`if ltp and ltp > 0: ... else: ... Data unavailable`). -/
def formatLine (name : String) (v : Option (Option Rat)) : String :=
  match getDefault0 v with
  | some x =>
    if decide (x ≠ 0) && decide (0 < x) then "📈 <b>" ++ name ++ "</b>: " ++ fmtPrice x
    else "📈 <b>" ++ name ++ "</b>: Data unavailable"
  | none => "📈 <b>" ++ name ++ "</b>: Data unavailable"   -- `ltp` is None: falsy

/-- The timestamp line `f"\n🕐 ⒸtsⒸ"`. -/
def tsLine (ts : String) : String := "\n🕐 " ++ ts

/-- The `messages` list built inside the usable-prices branch
(src/main.py lines 198-209). -/
def tickMessages (p : Prices) (ts : String) : List String :=
  [formatLine "NIFTY 50" p.nifty, formatLine "NIFTY BANK" p.bank,
   tsLine ts, "📡 Source: Angel One API"]

/-- The fixed warning sent when no usable data came back. -/
def unableMsg : String := "⚠️ Unable to fetch data from Angel One"

/-- The single text sent in one successful (non-raising) loop iteration:
the joined `messages` when `prices and any(prices.values())`, the fixed
warning otherwise (src/main.py lines 197-216). -/
def tickText (po : Option Prices) (ts : String) : String :=
  match po with
  | some p =>
    if pricesUsable p then String.intercalate "\n" (tickMessages p ts)
    else unableMsg
  | none => unableMsg

/-- One full iteration of the `while True` body (src/main.py lines
192-220), as the list of Telegram send attempts it makes.  The fetch
step carries the possibility of an exception anywhere in the `try`
body; the `except` branch sends the error report. -/
def loopIter (fetch : Except String (Option Prices)) (ts : String) : List String :=
  match fetch with
  | .ok po => [tickText po ts]
  | .error e => ["⚠️ Error: " ++ e]

/-! ## Startup (`bot_loop` before the loop) -/

/-- The six required environment variables (src/main.py lines 23-31). -/
structure Env where
  apiKey : Option String
  clientId : Option String
  password : Option String
  totpSecret : Option String
  teleToken : Option String
  teleChatId : Option String
deriving Repr, DecidableEq

/-- `all(REQUIRED)`: every required variable truthy (set and non-empty). -/
def Env.allRequired (e : Env) : Bool :=
  strTruthy e.apiKey && strTruthy e.clientId && strTruthy e.password
    && strTruthy e.totpSecret && strTruthy e.teleToken && strTruthy e.teleChatId

/-- Observable outcome of the startup section of `bot_loop` (src/main.py
lines 177-190): whether `login_and_setup` was called, the texts of the
notification attempts made, and whether control reaches the polling
`while True` loop. -/
structure StartupResult where
  loginAttempted : Bool
  sends : List String
  entersPolling : Bool
deriving Repr, DecidableEq

/-- The startup section of `bot_loop`: a missing required variable logs
and returns before anything else; a raising `login_and_setup` sends one
failure notification and returns; otherwise one start-up notification is
sent and the polling loop is entered. -/
def bot_startup (env : Env) (pollInterval : Nat) (login : Except String Session) :
    StartupResult :=
  if !env.allRequired then ⟨false, [], false⟩
  else
    match login with
    | .error e => ⟨true, ["❌ Login failed: " ++ e], false⟩
    | .ok _ =>
      ⟨true,
       ["✅ Bot started! Polling every " ++ toString pollInterval
          ++ "s\n📊 Using Angel One Market Data API"],
       true⟩

/-- Boolean check that `pat` occurs as a contiguous run inside a
character list (used to state substring facts about sent messages). -/
def hasInfixChars (pat : List Char) : List Char → Bool
  | [] => pat.isPrefixOf []
  | c :: rest => pat.isPrefixOf (c :: rest) || hasInfixChars pat rest

/-- Boolean check that `pat` occurs as a substring of `s`. -/
def strContainsSub (s pat : String) : Bool := hasInfixChars pat.data s.data

/-- A concrete quote-retrieval world: the first SDK call returns the
NIFTY price 100, the second SDK call raises, and both direct REST calls
come back with status 500 (contributing nothing). -/
def sdkInterruptedWorld : MarketWorld :=
  ⟨true, Except.ok (some ⟨true, [some 100]⟩), Except.error (),
   Except.ok ⟨500, Except.ok ⟨false, []⟩⟩, Except.ok ⟨500, Except.ok ⟨false, []⟩⟩⟩

end AngelBot

namespace AngelBot

/-! ## Theorems for the claims -/

/-- C7: for every token, chat id, text and HTTP outcome, `tele_send_http`
is a total Boolean function (it never propagates an exception) that
returns `true` exactly when the token is set (truthy) and the POST
returned status 200; it returns `false` on an unset token, on any
exception during the request, and on any non-200 response. -/
theorem tele_send_http_spec (token : Option String) (chat_id text : String)
    (post : Except Unit HttpResp) :
    tele_send_http token chat_id text post = true ↔
      (strTruthy token = true ∧ ∃ r, post = Except.ok r ∧ r.code = 200) := by
  rcases post with e | r <;> cases htok : strTruthy token <;>
    simp [tele_send_http, htok]

/-- C8: when the primary login call succeeds (`generateSession` returns a
truthy dict whose status is not `False` and whose nested payload is
present) and the SDK is available, `login_and_setup` returns a session
whatever the outcomes of the feed-token fetch and the refresh-token
exchange: the feed token is the fetched value or `none` if that call
raised, and the `generateToken` outcome is discarded entirely. -/
theorem login_and_setup_tolerates_aux_failures (w : LoginWorld)
    (d : GenSessionData) (jwt refresh : String)
    (hsdk : w.sdkAvailable = true)
    (hgen : w.genSession = Except.ok (some d))
    (hstatus : d.statusIsFalse = false)
    (hpayload : d.payload = some (jwt, refresh)) :
    login_and_setup w = Except.ok ⟨jwt, refresh, w.feedToken.toOption⟩ := by
  unfold login_and_setup
  rw [hsdk, hgen]
  simp [hstatus, hpayload]
  rcases w.feedToken with e | t <;> simp [Except.toOption]

/-- Witness for C8: a concrete world in which both the feed-token fetch
and the refresh call raise, yet login succeeds with an absent feed
token. -/
theorem login_and_setup_tolerates_aux_failures_witness :
    login_and_setup
        ⟨true, Except.ok (some ⟨false, some ("J", "R")⟩), Except.error (), Except.error ()⟩
      = Except.ok ⟨"J", "R", none⟩ :=
  login_and_setup_tolerates_aux_failures
    ⟨true, Except.ok (some ⟨false, some ("J", "R")⟩), Except.error (), Except.error ()⟩
    ⟨false, some ("J", "R")⟩ "J" "R" rfl rfl rfl rfl

/-- C9: `get_market_data_angel` never returns an empty mapping: whenever
it returns a mapping at all, at least one of the two keys is present.
(That its keys lie in the fixed two-key set and its values are non-null
rationals is enforced by the `PriceMap` type, which mirrors the fact
that the code only ever assigns `float` values to those two keys.) -/
theorem get_market_data_angel_nonempty (w : MarketWorld) (m : PriceMap)
    (h : get_market_data_angel w = some m) : m.nonempty = true := by
  unfold get_market_data_angel at h
  by_cases he : sdkReturnsEarly w = true
  · rw [if_pos he] at h
    have hm : m = sdkPhase w := by injection h.symm
    subst hm
    unfold sdkReturnsEarly at he
    simp only [Bool.and_eq_true] at he
    exact he.2
  · rw [if_neg he] at h
    unfold restPhase at h
    split at h
    · exact absurd h (by simp)
    · split at h
      · exact absurd h (by simp)
      · split at h
        · rename_i h3
          injection h with hm
          rw [← hm]; exact h3
        · exact absurd h (by simp)

/-- Witness for C9: a concrete world whose REST path yields one price. -/
theorem get_market_data_angel_nonempty_witness :
    PriceMap.nonempty ⟨none, some 42⟩ = true :=
  get_market_data_angel_nonempty
    ⟨false, Except.error (), Except.error (),
     Except.ok ⟨500, Except.ok ⟨false, []⟩⟩,
     Except.ok ⟨200, Except.ok ⟨true, [some 42]⟩⟩⟩
    ⟨none, some 42⟩ (by decide)

/-- C6: when a required environment variable is not truthy, `bot_loop`
returns immediately: no login attempt, no notification send, and the
polling loop is never entered, whatever the login outcome would have
been. -/
theorem bot_startup_missing_env (env : Env) (n : Nat)
    (login : Except String Session) (h : env.allRequired = false) :
    bot_startup env n login = ⟨false, [], false⟩ := by
  unfold bot_startup
  rw [h]
  rfl

/-- Witness for C6: an environment with the API key unset. -/
theorem bot_startup_missing_env_witness :
    bot_startup ⟨none, some "c", some "p", some "t", some "tok", some "id"⟩ 60
        (Except.ok ⟨"J", "R", none⟩) = ⟨false, [], false⟩ :=
  bot_startup_missing_env
    ⟨none, some "c", some "p", some "t", some "tok", some "id"⟩ 60
    (Except.ok ⟨"J", "R", none⟩) (by decide)

/-- C5: when all required environment variables are set and
`login_and_setup` raises, `bot_loop` attempts login, makes exactly one
notification attempt (the login-failure message) and returns without
entering the polling loop. -/
theorem bot_startup_login_failure (env : Env) (n : Nat) (e : String)
    (h : env.allRequired = true) :
    bot_startup env n (Except.error e) = ⟨true, ["❌ Login failed: " ++ e], false⟩ ∧
    (bot_startup env n (Except.error e)).sends.length = 1 ∧
    (bot_startup env n (Except.error e)).entersPolling = false := by
  unfold bot_startup
  rw [h]
  exact ⟨rfl, rfl, rfl⟩

/-- Witness for C5: a fully-configured environment with a raising login. -/
theorem bot_startup_login_failure_witness :
    bot_startup ⟨some "k", some "c", some "p", some "t", some "tok", some "id"⟩ 60
        (Except.error "boom")
      = ⟨true, ["❌ Login failed: " ++ "boom"], false⟩ ∧
    (bot_startup ⟨some "k", some "c", some "p", some "t", some "tok", some "id"⟩ 60
        (Except.error "boom")).sends.length = 1 ∧
    (bot_startup ⟨some "k", some "c", some "p", some "t", some "tok", some "id"⟩ 60
        (Except.error "boom")).entersPolling = false :=
  bot_startup_login_failure
    ⟨some "k", some "c", some "p", some "t", some "tok", some "id"⟩ 60 "boom" (by decide)

/-- C10: every iteration of the polling phase makes exactly one
notification attempt before sleeping, and it is one of: the formatted
price message (at least one truthy price), the fixed unable-to-fetch
warning (no usable data), or the error report (the tick body raised). -/
theorem loopIter_exactly_one_send (fetch : Except String (Option Prices))
    (ts : String) :
    (loopIter fetch ts).length = 1 ∧
    ((∃ p, fetch = Except.ok (some p) ∧ pricesUsable p = true ∧
        loopIter fetch ts = [String.intercalate "\n" (tickMessages p ts)]) ∨
     (∃ po, fetch = Except.ok po ∧ fetchUsable po = false ∧
        loopIter fetch ts = [unableMsg]) ∨
     (∃ e, fetch = Except.error e ∧ loopIter fetch ts = ["⚠️ Error: " ++ e])) := by
  rcases fetch with e | po
  · exact ⟨rfl, Or.inr (Or.inr ⟨e, rfl, rfl⟩)⟩
  · refine ⟨rfl, ?_⟩
    rcases po with _ | p
    · exact Or.inr (Or.inl ⟨none, rfl, rfl, rfl⟩)
    · by_cases hu : pricesUsable p = true
      · exact Or.inl ⟨p, rfl, hu, by simp [loopIter, tickText, hu]⟩
      · refine Or.inr (Or.inl ⟨some p, rfl, ?_, ?_⟩)
        · simpa [fetchUsable] using hu
        · simp [loopIter, tickText, hu]

/-- C3: whenever a poll tick takes the quote-reporting branch (the one
that formats per-instrument quote lines), the produced message list
contains the timestamp line, and the sent text is the join of that list
— so the sent message includes the timestamp string even when one of
the prices renders as unavailable. -/
theorem tick_quote_message_has_timestamp (p : Prices) (ts : String)
    (h : pricesUsable p = true) :
    tsLine ts ∈ tickMessages p ts ∧
    tickText (some p) ts = String.intercalate "\n" (tickMessages p ts) ∧
    ts.data <:+: (tickText (some p) ts).data := by
  refine ⟨by simp [tickMessages], by simp [tickText, h], ?_⟩
  simp only [tickText, h, if_pos]
  have hjoin : String.intercalate "\n" (tickMessages p ts)
      = formatLine "NIFTY 50" p.nifty ++ "\n" ++ formatLine "NIFTY BANK" p.bank
        ++ "\n" ++ tsLine ts ++ "\n" ++ "📡 Source: Angel One API" := rfl
  rw [hjoin]
  refine ⟨(formatLine "NIFTY 50" p.nifty ++ "\n" ++ formatLine "NIFTY BANK" p.bank
      ++ "\n" ++ "\n🕐 ").data,
    ("\n" ++ "📡 Source: Angel One API").data, ?_⟩
  simp [String.data_append, tsLine, List.append_assoc]

/-- Witness for C3: concrete prices with one truthy quote and one null
quote; the timestamp line is present in the message list. -/
theorem tick_quote_message_has_timestamp_witness :
    tsLine "2025-01-01 00:00:00" ∈ tickMessages ⟨some (some 100), some none⟩ "2025-01-01 00:00:00" ∧
    tickText (some ⟨some (some 100), some none⟩) "2025-01-01 00:00:00"
      = String.intercalate "\n" (tickMessages ⟨some (some 100), some none⟩ "2025-01-01 00:00:00") ∧
    ("2025-01-01 00:00:00" : String).data
      <:+: (tickText (some ⟨some (some 100), some none⟩) "2025-01-01 00:00:00").data :=
  tick_quote_message_has_timestamp ⟨some (some 100), some none⟩ "2025-01-01 00:00:00" (by decide)

/-- C4: for every price mapping and timestamp, replacing a zero-valued
entry by an absent entry (in either key) leaves the text of the poll
tick unchanged: `prices.get(name, 0)` maps a missing key to the same
falsy `0`, and a zero value contributes nothing to
`any(prices.values())`. -/
theorem zero_price_indistinguishable_from_missing (p : Prices) (ts : String) :
    tickText (some { p with nifty := some (some 0) }) ts
      = tickText (some { p with nifty := none }) ts ∧
    tickText (some { p with bank := some (some 0) }) ts
      = tickText (some { p with bank := none }) ts := by
  rcases p with ⟨pn, pb⟩
  constructor
  · rcases pb with _ | ob
    · simp [tickText, pricesUsable, valueTruthy]
    · rcases ob with _ | x
      · simp [tickText, pricesUsable, valueTruthy]
      · by_cases hx : x = 0
        · subst hx; simp [tickText, pricesUsable, valueTruthy]
        · simp [tickText, pricesUsable, valueTruthy, hx, tickMessages, formatLine,
            getDefault0]
  · rcases pn with _ | ob
    · simp [tickText, pricesUsable, valueTruthy]
    · rcases ob with _ | x
      · simp [tickText, pricesUsable, valueTruthy]
      · by_cases hx : x = 0
        · subst hx; simp [tickText, pricesUsable, valueTruthy]
        · simp [tickText, pricesUsable, valueTruthy, hx, tickMessages, formatLine,
            getDefault0]

/-- C1 is false as stated: in `sdkInterruptedWorld` the SDK strategy stores
the NIFTY price 100 and then raises on its second call.  The claim says
a raising strategy contributes nothing to the returned mapping and that
the REST strategy is never invoked once the earlier strategy produced a
non-null price; instead, the REST block is reached (it returns nothing
here) and the final mapping still contains the price the raising SDK
strategy stored. -/
theorem get_market_data_sdk_interrupted_counterexample :
    (sdkPhase sdkInterruptedWorld).nifty = some 100 ∧
    restInvoked sdkInterruptedWorld = true ∧
    get_market_data_angel sdkInterruptedWorld = some ⟨some 100, none⟩ := by
  decide

/-- `sdkPhase` depends only on the SDK-related fields of the world. -/
theorem sdkPhase_congr (w w' : MarketWorld)
    (h1 : w'.hasGetMarketData = w.hasGetMarketData)
    (h2 : w'.sdkNifty = w.sdkNifty) (h3 : w'.sdkBank = w.sdkBank) :
    sdkPhase w' = sdkPhase w := by
  unfold sdkPhase
  rw [h1, h2, h3]

/-- `sdkReturnsEarly` depends only on the SDK-related fields. -/
theorem sdkReturnsEarly_congr (w w' : MarketWorld)
    (h1 : w'.hasGetMarketData = w.hasGetMarketData)
    (h2 : w'.sdkNifty = w.sdkNifty) (h3 : w'.sdkBank = w.sdkBank) :
    sdkReturnsEarly w' = sdkReturnsEarly w := by
  unfold sdkReturnsEarly
  rw [h1, h2, h3, sdkPhase_congr w w' h1 h2 h3]

/-- C1 (amended): the quote retrieval returns the SDK strategy's
accumulated mapping — independent of the REST responses, which are then
never consulted — exactly when both SDK calls complete without raising
and that mapping is non-empty; when the SDK strategy raises partway,
prices it already stored are retained in the shared mapping and the
REST block is still invoked, merging into it. -/
theorem get_market_data_first_success_short_circuits
    (w w' : MarketWorld) (h : sdkReturnsEarly w = true)
    (h1 : w'.hasGetMarketData = w.hasGetMarketData)
    (h2 : w'.sdkNifty = w.sdkNifty) (h3 : w'.sdkBank = w.sdkBank) :
    get_market_data_angel w = some (sdkPhase w) ∧
    get_market_data_angel w' = get_market_data_angel w ∧
    restInvoked w = false := by
  have hp : sdkPhase w' = sdkPhase w := sdkPhase_congr w w' h1 h2 h3
  have he : sdkReturnsEarly w' = sdkReturnsEarly w := sdkReturnsEarly_congr w w' h1 h2 h3
  refine ⟨?_, ?_, ?_⟩
  · unfold get_market_data_angel
    rw [h]
    rfl
  · unfold get_market_data_angel
    rw [he, h, hp]
    rfl
  · unfold restInvoked
    rw [h]
    rfl

/-- Witness for C1 (amended): a successful SDK world and a copy of it
with entirely different REST responses yield the same returned mapping,
without consulting REST. -/
theorem get_market_data_first_success_short_circuits_witness :
    get_market_data_angel
        ⟨true, Except.ok (some ⟨true, [some 100]⟩), Except.ok none,
         Except.ok ⟨500, Except.ok ⟨false, []⟩⟩, Except.ok ⟨500, Except.ok ⟨false, []⟩⟩⟩
      = some (sdkPhase
        ⟨true, Except.ok (some ⟨true, [some 100]⟩), Except.ok none,
         Except.ok ⟨500, Except.ok ⟨false, []⟩⟩, Except.ok ⟨500, Except.ok ⟨false, []⟩⟩⟩) ∧
    get_market_data_angel
        ⟨true, Except.ok (some ⟨true, [some 100]⟩), Except.ok none,
         Except.ok ⟨200, Except.ok ⟨true, [some 7]⟩⟩, Except.error ()⟩
      = get_market_data_angel
        ⟨true, Except.ok (some ⟨true, [some 100]⟩), Except.ok none,
         Except.ok ⟨500, Except.ok ⟨false, []⟩⟩, Except.ok ⟨500, Except.ok ⟨false, []⟩⟩⟩ ∧
    restInvoked
        ⟨true, Except.ok (some ⟨true, [some 100]⟩), Except.ok none,
         Except.ok ⟨500, Except.ok ⟨false, []⟩⟩, Except.ok ⟨500, Except.ok ⟨false, []⟩⟩⟩
      = false :=
  get_market_data_first_success_short_circuits
    ⟨true, Except.ok (some ⟨true, [some 100]⟩), Except.ok none,
     Except.ok ⟨500, Except.ok ⟨false, []⟩⟩, Except.ok ⟨500, Except.ok ⟨false, []⟩⟩⟩
    ⟨true, Except.ok (some ⟨true, [some 100]⟩), Except.ok none,
     Except.ok ⟨200, Except.ok ⟨true, [some 7]⟩⟩, Except.error ()⟩
    (by decide) rfl rfl rfl

/-- C2 is false as stated: with the scenario mapping (NIFTY 50 ↦ 0,
NIFTY BANK ↦ null), `any(prices.values())` is false, so the tick does
not render per-instrument lines at all: it sends the single fixed
unable-to-fetch warning, which does not contain the "Data unavailable"
marker. -/
theorem tick_all_falsy_counterexample :
    tickText (some ⟨some (some 0), some none⟩) "2025-01-01 00:00:00" = unableMsg ∧
    strContainsSub (tickText (some ⟨some (some 0), some none⟩) "2025-01-01 00:00:00")
      "Data unavailable" = false := by
  decide

/-- C2 (amended): with the scenario mapping (NIFTY 50 ↦ 0, NIFTY BANK ↦
null), the poll tick makes a single send whose text is the fixed
unable-to-fetch warning, and nothing raises on the null price (the
iteration is a total function of the mapping). -/
theorem tick_all_falsy_sends_warning (ts : String) :
    loopIter (Except.ok (some ⟨some (some 0), some none⟩)) ts = [unableMsg] := by
  have h : pricesUsable ⟨some (some 0), some none⟩ = false := by decide
  simp [loopIter, tickText, h]

end AngelBot
